import Mathlib

/-!
Shallow embedding of `run_backtest_2024.py`, a script that aggregates
per-asset trading simulation results into a portfolio-level report.

Modelling conventions:
* Python numbers are embedded as `ℤ` (counts) and `ℚ` (rates, R-multiples);
* a dictionary field that may be absent is an `Option`, with `Option.getD`
  embedding `dict.get(key, default)`;
* the external simulation `run_backtest(asset, period)` is a parameter of
  type `String → Except String SimResult` (`.error` models a raised
  exception, caught by the per-asset `try/except`);
* Python's true division, which raises `ZeroDivisionError` on a zero
  denominator, is embedded as `pyDiv` in the `Except String` monad, so
  "the run raises no division error" is "the run returns `.ok`";
* console output is embedded as a list of structured `ConsoleLine` values
  (formatting precision of the f-strings is presentational and not
  modelled; the data each printed line carries is).
-/

namespace Backtest

/-- A trade as consumed by the aggregator: only the realized R-multiple
`rr` is read (`t.get('rr', 0)` in the source); `none` models an absent
key. -/
structure Trade where
  rr : Option ℚ := none
deriving Repr, DecidableEq

/-- The dictionary returned by the external `run_backtest` engine.  Every
field may be absent (`none`); the aggregator resolves defaults with
`dict.get(key, default)`. -/
structure SimResult where
  total_trades : Option ℤ := none
  win_rate : Option ℚ := none
  net_return_pct : Option ℚ := none
  trades : Option (List Trade) := none
  max_drawdown_pct : Option ℚ := none
  tp1_trail_hits : Option ℤ := none
  tp2_hits : Option ℤ := none
  tp3_hits : Option ℤ := none
  sl_hits : Option ℤ := none
deriving Repr, DecidableEq

/-- Embedding of `t.get('rr', 0)`. -/
def tradeRR (t : Trade) : ℚ := t.rr.getD 0

/-- Embedding of `result.get('trades', [])`. -/
def tradesOf (r : SimResult) : List Trade := r.trades.getD []

/-- Embedding of `sum(t.get('rr', 0) for t in trades) if trades else 0`
(line 93 of the source; `if trades` is Python truthiness of the list). -/
def totalROf (r : SimResult) : ℚ :=
  if (tradesOf r).isEmpty then 0 else ((tradesOf r).map tradeRR).sum

/-- Embedding of `sum(1 for t in trades if t.get('rr', 0) > 0)` (line 110). -/
def winCount (r : SimResult) : ℤ :=
  (((tradesOf r).countP fun t => decide (0 < tradeRR t) : ℕ) : ℤ)

/-- The per-asset record appended to `all_results` (lines 95-107). -/
structure AssetRow where
  asset : String
  trades : ℤ
  win_rate : ℚ
  total_r : ℚ
  return_pct : ℚ
  max_dd_pct : ℚ
  tp1_hits : ℤ
  tp2_hits : ℤ
  tp3_hits : ℤ
  sl_hits : ℤ
  full_result : SimResult
deriving Repr, DecidableEq

/-- The dictionary built at lines 95-107: field extraction with
defensive defaults from the raw engine result. -/
def normalizeRow (asset : String) (r : SimResult) : AssetRow :=
  { asset := asset
    trades := r.total_trades.getD 0
    win_rate := r.win_rate.getD 0
    total_r := totalROf r
    return_pct := r.net_return_pct.getD 0
    max_dd_pct := r.max_drawdown_pct.getD 0
    tp1_hits := r.tp1_trail_hits.getD 0
    tp2_hits := r.tp2_hits.getD 0
    tp3_hits := r.tp3_hits.getD 0
    sl_hits := r.sl_hits.getD 0
    full_result := r }

/-- One printed console line, structured (decorative banner lines are not
modelled; the data-carrying lines are). -/
inductive ConsoleLine where
  | assetResult (i n : ℕ) (asset : String) (trades : ℤ) (winRate totalR : ℚ)
  | assetNoTrades (i n : ℕ) (asset : String)
  | assetError (i n : ℕ) (asset : String) (msg : String)
  | noTradesFound
  | summaryLine (period : String) (assetsWithTrades : ℕ) (totalTrades : ℤ)
      (winRate totalR avgR netReturnPct netProfitUsd : ℚ)
  | exitLine (tag : String) (count : ℤ) (pct : ℚ)
  | topLine (rank : ℕ) (asset : String) (trades : ℤ)
      (winRate totalR returnPct : ℚ)
  | savedLine (filename : String)
deriving Repr, DecidableEq

/-- The mutable state of the main loop (lines 76-79): the growing
`all_results` list, the three running totals, and the console transcript. -/
structure AggState where
  all_results : List AssetRow
  total_trades_all : ℤ
  total_wins_all : ℤ
  total_r_all : ℚ
  console : List ConsoleLine
deriving Repr, DecidableEq

/-- Loop state before the first iteration. -/
def initState : AggState :=
  { all_results := [], total_trades_all := 0, total_wins_all := 0
    total_r_all := 0, console := [] }

/-- One iteration of the loop body (lines 84-118): call the engine, catch
any exception, and on success with a positive trade count append the
normalized row and bump the running totals. -/
def processOne (rb : String → Except String SimResult) (n i : ℕ)
    (st : AggState) (asset : String) : AggState :=
  match rb asset with
  | .error e =>
      { st with console := st.console ++ [ConsoleLine.assetError i n asset e] }
  | .ok result =>
      let total_trades := result.total_trades.getD 0
      if 0 < total_trades then
        let row := normalizeRow asset result
        { all_results := st.all_results ++ [row]
          total_trades_all := st.total_trades_all + total_trades
          total_wins_all := st.total_wins_all + winCount result
          total_r_all := st.total_r_all + totalROf result
          console := st.console ++
            [ConsoleLine.assetResult i n asset total_trades row.win_rate row.total_r] }
      else
        { st with console := st.console ++ [ConsoleLine.assetNoTrades i n asset] }

/-- The `for i, asset in enumerate(all_assets, 1)` loop. -/
def runLoop (rb : String → Except String SimResult) (n : ℕ) :
    ℕ → List String → AggState → AggState
  | _, [], st => st
  | i, a :: rest, st => runLoop rb n (i + 1) rest (processOne rb n i st a)

/-- Embedding of `FOREX_PAIRS + METALS + INDICES + CRYPTO_ASSETS` (line 74). -/
def allAssets (FOREX_PAIRS METALS INDICES CRYPTO_ASSETS : List String) :
    List String :=
  FOREX_PAIRS ++ METALS ++ INDICES ++ CRYPTO_ASSETS

/-- The loop state after the whole universe has been processed. -/
def finalState (rb : String → Except String SimResult)
    (FOREX_PAIRS METALS INDICES CRYPTO_ASSETS : List String) : AggState :=
  runLoop rb (allAssets FOREX_PAIRS METALS INDICES CRYPTO_ASSETS).length 1
    (allAssets FOREX_PAIRS METALS INDICES CRYPTO_ASSETS) initState

/-- Python's true division: raises `ZeroDivisionError` when the
denominator is zero. -/
def pyDiv (a b : ℚ) : Except String ℚ :=
  if b = 0 then .error "ZeroDivisionError: division by zero" else .ok (a / b)

/-- Line 133: `(total_wins_all / total_trades_all * 100) if
total_trades_all > 0 else 0`. -/
def avg_win_rate_calc (tw tt : ℤ) : Except String ℚ :=
  if 0 < tt then (pyDiv (tw : ℚ) (tt : ℚ)).map (· * 100) else .ok 0

/-- Line 134: `total_r_all / total_trades_all if total_trades_all > 0
else 0`. -/
def avg_r_calc (tr : ℚ) (tt : ℤ) : Except String ℚ :=
  if 0 < tt then pyDiv tr (tt : ℚ) else .ok 0

/-- Line 135: `total_r_all * RISK_PER_TRADE_PCT * 100`. -/
def total_return_pct_calc (tr risk : ℚ) : ℚ := tr * risk * 100

/-- Line 136: `ACCOUNT_SIZE * (total_return_pct / 100)` (the denominator
is the literal 100, never zero). -/
def total_profit_calc (accountSize trp : ℚ) : ℚ := accountSize * (trp / 100)

/-- The comparator under `all_results.sort(key=lambda x: x['total_r'],
reverse=True)`: `a` may precede `b` iff `b.total_r ≤ a.total_r`. -/
def rowLE (a b : AssetRow) : Bool := decide (b.total_r ≤ a.total_r)

/-- Line 130: Python's `list.sort` is a stable sort; with `reverse=True`
entries with equal keys keep their original relative order.  Embedded as
a stable merge sort with the descending comparator. -/
def sortRows (l : List AssetRow) : List AssetRow := l.mergeSort rowLE

/-- Embedding of `all_results[:10]` after the sort (line 160). -/
def topPerformers (l : List AssetRow) : List AssetRow := (sortRows l).take 10

/-- The `exit_breakdown` sub-dictionary (lines 179-184). -/
structure ExitBreakdown where
  tp1_trail : ℤ
  tp2 : ℤ
  tp3 : ℤ
  sl : ℤ
deriving Repr, DecidableEq

/-- The `summary` sub-dictionary (lines 170-185). -/
structure SummaryBlock where
  total_assets_tested : ℕ
  assets_with_trades : ℕ
  total_trades : ℤ
  win_rate : ℚ
  total_r : ℚ
  avg_r_per_trade : ℚ
  net_return_pct : ℚ
  net_profit_usd : ℚ
  exit_breakdown : ExitBreakdown
deriving Repr, DecidableEq

/-- One entry of the `by_asset` list (lines 186-196). -/
structure ByAssetEntry where
  asset : String
  trades : ℤ
  win_rate : ℚ
  total_r : ℚ
  return_pct : ℚ
  max_dd_pct : ℚ
deriving Repr, DecidableEq

/-- The full `output_data` dictionary (lines 164-197), keys in insertion
order. -/
structure OutputData where
  period : String
  generated_at : String
  account_size : ℚ
  risk_per_trade_pct : ℚ
  signal_mode : String
  summary : SummaryBlock
  by_asset : List ByAssetEntry
deriving Repr, DecidableEq

/-- Projection of an `AssetRow` to its `by_asset` record (lines 187-194). -/
def toByAsset (r : AssetRow) : ByAssetEntry :=
  { asset := r.asset, trades := r.trades, win_rate := r.win_rate
    total_r := r.total_r, return_pct := r.return_pct
    max_dd_pct := r.max_dd_pct }

/-- Construction of `output_data` (lines 164-197) from the post-loop
values. -/
def mkOutputData (period now : String) (accountSize risk : ℚ)
    (signalMode : String) (nAssets : ℕ) (ranked : List AssetRow) (tt : ℤ)
    (awr tr ar trp profit : ℚ) (tp1 tp2 tp3 sl : ℤ) : OutputData :=
  { period := period
    generated_at := now
    account_size := accountSize
    risk_per_trade_pct := risk * 100
    signal_mode := signalMode
    summary :=
      { total_assets_tested := nAssets
        assets_with_trades := ranked.length
        total_trades := tt
        win_rate := awr
        total_r := tr
        avg_r_per_trade := ar
        net_return_pct := trp
        net_profit_usd := profit
        exit_breakdown := { tp1_trail := tp1, tp2 := tp2, tp3 := tp3, sl := sl } }
    by_asset := ranked.map toByAsset }

/-- The value a whole run produces: the console transcript and the
structured artifact (`none` embeds the early `return {}` of the
no-qualifying-assets branch, lines 125-127). -/
structure RunOutput where
  console : List ConsoleLine
  result : Option OutputData
deriving Repr, DecidableEq

/-- Embedding of `run_full_backtest` (lines 60-205).  Uncaught exceptions — here only
`ZeroDivisionError` from unguarded divisions — surface as `.error`. -/
def run_full_backtest (rb : String → Except String SimResult)
    (FOREX_PAIRS METALS INDICES CRYPTO_ASSETS : List String)
    (ACCOUNT_SIZE RISK_PER_TRADE_PCT : ℚ) (SIGNAL_MODE now : String) :
    Except String RunOutput :=
  let period := "Jan 2024 - Dec 2024"
  let all_assets := allAssets FOREX_PAIRS METALS INDICES CRYPTO_ASSETS
  let st := finalState rb FOREX_PAIRS METALS INDICES CRYPTO_ASSETS
  if st.all_results.isEmpty then
    .ok { console := st.console ++ [ConsoleLine.noTradesFound], result := none }
  else
    let ranked := sortRows st.all_results
    (avg_win_rate_calc st.total_wins_all st.total_trades_all).bind fun avg_win_rate =>
    (avg_r_calc st.total_r_all st.total_trades_all).bind fun avg_r =>
    let total_return_pct := total_return_pct_calc st.total_r_all RISK_PER_TRADE_PCT
    let total_profit_usd := total_profit_calc ACCOUNT_SIZE total_return_pct
    let total_tp1 := (ranked.map AssetRow.tp1_hits).sum
    let total_tp2 := (ranked.map AssetRow.tp2_hits).sum
    let total_tp3 := (ranked.map AssetRow.tp3_hits).sum
    let total_sl := (ranked.map AssetRow.sl_hits).sum
    (pyDiv (total_tp1 : ℚ) (st.total_trades_all : ℚ)).bind fun p1 =>
    (pyDiv (total_tp2 : ℚ) (st.total_trades_all : ℚ)).bind fun p2 =>
    (pyDiv (total_tp3 : ℚ) (st.total_trades_all : ℚ)).bind fun p3 =>
    (pyDiv (total_sl : ℚ) (st.total_trades_all : ℚ)).bind fun p4 =>
    .ok
      { console := st.console ++
          [ConsoleLine.summaryLine period ranked.length st.total_trades_all
            avg_win_rate st.total_r_all avg_r total_return_pct total_profit_usd,
           ConsoleLine.exitLine "TP1+Trail" total_tp1 (p1 * 100),
           ConsoleLine.exitLine "TP2" total_tp2 (p2 * 100),
           ConsoleLine.exitLine "TP3" total_tp3 (p3 * 100),
           ConsoleLine.exitLine "SL" total_sl (p4 * 100)] ++
          ((ranked.take 10).enum.map fun p =>
            ConsoleLine.topLine (p.1 + 1) p.2.asset p.2.trades p.2.win_rate
              p.2.total_r p.2.return_pct) ++
          [ConsoleLine.savedLine "backtest_results_2024.json"]
        result := some (mkOutputData period now ACCOUNT_SIZE RISK_PER_TRADE_PCT
          SIGNAL_MODE all_assets.length ranked st.total_trades_all
          avg_win_rate st.total_r_all avg_r total_return_pct total_profit_usd
          total_tp1 total_tp2 total_tp3 total_sl) }

/-- The artifact result of a run, when the run succeeded. -/
def runResult (x : Except String RunOutput) : Option (Option OutputData) :=
  match x with
  | .ok o => some o.result
  | .error _ => none

/-- The console transcript of a run, when the run succeeded. -/
def runConsole (x : Except String RunOutput) : List ConsoleLine :=
  match x with
  | .ok o => o.console
  | .error _ => []

/-- Field `summary.net_return_pct` of a successful run's artifact. -/
def netReturnOf (x : Except String RunOutput) : Option ℚ :=
  match x with
  | .ok o => o.result.map fun d => d.summary.net_return_pct
  | .error _ => none

/-- Field `summary.net_profit_usd` of a successful run's artifact. -/
def netProfitOf (x : Except String RunOutput) : Option ℚ :=
  match x with
  | .ok o => o.result.map fun d => d.summary.net_profit_usd
  | .error _ => none

/-- Field `summary.win_rate` of a successful run's artifact. -/
def winRateOf (x : Except String RunOutput) : Option ℚ :=
  match x with
  | .ok o => o.result.map fun d => d.summary.win_rate
  | .error _ => none

/-! ### Report serialization (`json.dump(output_data, f, indent=2)`)

`json.dump` writes the dictionary's keys in insertion order; the byte
layout is a pure function of the dictionary.  The renderer below mirrors
that key order.  Whitespace details of `indent=2` and float `repr` are
presentational; what matters for the determinism property is that the
output is a function of the field values with the timestamp appearing
exactly once. -/

/-- An opening brace as JSON text. -/
def jsonLB : String := "\x7b"

/-- A closing brace as JSON text. -/
def jsonRB : String := "\x7d"

/-- A JSON string literal. -/
def jstr (s : String) : String := "\"" ++ s ++ "\""

/-- A JSON number from a rational. -/
def jq (q : ℚ) : String := toString q

/-- A JSON number from an integer. -/
def jz (z : ℤ) : String := toString z

/-- A JSON number from a natural. -/
def jn (n : ℕ) : String := toString n

/-- Serialization of the `exit_breakdown` dictionary. -/
def renderExit (e : ExitBreakdown) : String :=
  jsonLB ++ "\"tp1_trail\": " ++ jz e.tp1_trail ++ ", \"tp2\": " ++ jz e.tp2 ++
    ", \"tp3\": " ++ jz e.tp3 ++ ", \"sl\": " ++ jz e.sl ++ jsonRB

/-- Serialization of the `summary` dictionary. -/
def renderSummary (s : SummaryBlock) : String :=
  jsonLB ++ "\"total_assets_tested\": " ++ jn s.total_assets_tested ++
    ", \"assets_with_trades\": " ++ jn s.assets_with_trades ++
    ", \"total_trades\": " ++ jz s.total_trades ++
    ", \"win_rate\": " ++ jq s.win_rate ++
    ", \"total_r\": " ++ jq s.total_r ++
    ", \"avg_r_per_trade\": " ++ jq s.avg_r_per_trade ++
    ", \"net_return_pct\": " ++ jq s.net_return_pct ++
    ", \"net_profit_usd\": " ++ jq s.net_profit_usd ++
    ", \"exit_breakdown\": " ++ renderExit s.exit_breakdown ++ jsonRB

/-- Serialization of one `by_asset` entry. -/
def renderAsset (a : ByAssetEntry) : String :=
  jsonLB ++ "\"asset\": " ++ jstr a.asset ++
    ", \"trades\": " ++ jz a.trades ++
    ", \"win_rate\": " ++ jq a.win_rate ++
    ", \"total_r\": " ++ jq a.total_r ++
    ", \"return_pct\": " ++ jq a.return_pct ++
    ", \"max_dd_pct\": " ++ jq a.max_dd_pct ++ jsonRB

/-- Serialization of the `by_asset` list. -/
def renderAssets (l : List ByAssetEntry) : String :=
  "[" ++ String.intercalate ", " (l.map renderAsset) ++ "]"

/-- The artifact bytes strictly before the timestamp value: the keys in
insertion order start `period`, `generated_at`. -/
def renderPre (d : OutputData) : String :=
  jsonLB ++ "\"period\": " ++ jstr d.period ++ ", \"generated_at\": "

/-- The artifact bytes strictly after the timestamp value. -/
def renderPost (d : OutputData) : String :=
  ", \"account_size\": " ++ jq d.account_size ++
    ", \"risk_per_trade_pct\": " ++ jq d.risk_per_trade_pct ++
    ", \"signal_mode\": " ++ jstr d.signal_mode ++
    ", \"summary\": " ++ renderSummary d.summary ++
    ", \"by_asset\": " ++ renderAssets d.by_asset ++ jsonRB

/-- Serialization of the whole artifact. -/
def renderOutput (d : OutputData) : String :=
  renderPre d ++ jstr d.generated_at ++ renderPost d

/-! ### Credential gate (lines 23-45) -/

/-- Python truthiness of `os.getenv(...)`: `None` and the empty string
are falsy. -/
def truthy : Option String → Bool
  | none => false
  | some s => !s.isEmpty

/-- The instructional message printed when credentials are missing
(lines 29-38; the `"=" * 70` banner lines are presentational). -/
def credentialMessage : List String :=
  ["OANDA API CREDENTIALS REQUIRED",
   "Please set the following environment variables:",
   "  export OANDA_API_KEY=\x27your_api_key\x27",
   "  export OANDA_ACCOUNT_ID=\x27your_account_id\x27",
   "Or configure them as GitHub Secrets and run via GitHub Actions."]

/-- Embedding of `check_credentials()` (lines 23-41): returns the printed lines and
the boolean verdict. -/
def check_credentials (api_key account_id : Option String) :
    List String × Bool :=
  if !truthy api_key || !truthy account_id then (credentialMessage, false)
  else ([], true)

/-- The module top level (lines 44-45 and 208-209): if the credential
check fails, `sys.exit(1)` fires before `backtest`/`config` are even
imported; otherwise `run_full_backtest()` runs.  `.error c` is process
termination with exit status `c`. -/
def mainProgram (rb : String → Except String SimResult)
    (FOREX_PAIRS METALS INDICES CRYPTO_ASSETS : List String)
    (ACCOUNT_SIZE RISK_PER_TRADE_PCT : ℚ) (SIGNAL_MODE now : String)
    (api_key account_id : Option String) :
    Except ℤ (Except String RunOutput) :=
  if (check_credentials api_key account_id).2 then
    .ok (run_full_backtest rb FOREX_PAIRS METALS INDICES CRYPTO_ASSETS
      ACCOUNT_SIZE RISK_PER_TRADE_PCT SIGNAL_MODE now)
  else
    .error 1

/-! ### Helper lemmas about the loop -/

/-- Binding an `Except.ok x` with `f` reduces to `f x`. -/
theorem ok_bind {ε α β : Type} (x : α) (f : α → Except ε β) :
    (Except.ok (ε := ε) x).bind f = f x := rfl

/-- The loop-state invariant: the trade total is non-negative, and it is
positive as soon as one qualifying row was appended. -/
def GoodState (st : AggState) : Prop :=
  0 ≤ st.total_trades_all ∧ (st.all_results ≠ [] → 0 < st.total_trades_all)

theorem processOne_good {rb : String → Except String SimResult} {n i : ℕ}
    {st : AggState} {a : String} (h : GoodState st) :
    GoodState (processOne rb n i st a) := by
  unfold processOne
  cases rb a with
  | error e => exact ⟨h.1, fun hne => h.2 hne⟩
  | ok r =>
      dsimp only
      split
      · rename_i hpos
        obtain ⟨h0, _⟩ := h
        constructor
        · show 0 ≤ st.total_trades_all + _
          omega
        · intro _
          show 0 < st.total_trades_all + _
          omega
      · exact ⟨h.1, fun hne => h.2 hne⟩

theorem runLoop_good {rb : String → Except String SimResult} {n : ℕ} :
    ∀ (l : List String) (i : ℕ) (st : AggState), GoodState st →
      GoodState (runLoop rb n i l st)
  | [], _, _, h => h
  | _ :: rest, i, st, h =>
      runLoop_good rest (i + 1) _ (processOne_good h)

theorem initState_good : GoodState initState :=
  ⟨le_refl 0, fun hne => absurd rfl hne⟩

theorem finalState_good (rb : String → Except String SimResult)
    (FP M I C : List String) : GoodState (finalState rb FP M I C) :=
  runLoop_good _ _ _ initState_good

/-- Once a qualifying row exists, the portfolio trade total is positive. -/
theorem finalState_tt_pos {rb : String → Except String SimResult}
    {FP M I C : List String} (h : (finalState rb FP M I C).all_results ≠ []) :
    0 < (finalState rb FP M I C).total_trades_all :=
  (finalState_good rb FP M I C).2 h

/-- A zero portfolio trade total means no qualifying row was appended. -/
theorem finalState_nil_of_tt_zero {rb : String → Except String SimResult}
    {FP M I C : List String}
    (h : (finalState rb FP M I C).total_trades_all = 0) :
    (finalState rb FP M I C).all_results = [] := by
  by_contra hne
  have := finalState_tt_pos hne
  omega

/-- The running totals are exactly the sums over the appended rows. -/
def SumsOk (st : AggState) : Prop :=
  st.total_r_all = (st.all_results.map AssetRow.total_r).sum ∧
  st.total_wins_all =
    (st.all_results.map fun row => winCount row.full_result).sum ∧
  st.total_trades_all = (st.all_results.map AssetRow.trades).sum

theorem processOne_sums {rb : String → Except String SimResult} {n i : ℕ}
    {st : AggState} {a : String} (h : SumsOk st) :
    SumsOk (processOne rb n i st a) := by
  obtain ⟨h1, h2, h3⟩ := h
  unfold processOne
  cases rb a with
  | error e => exact ⟨h1, h2, h3⟩
  | ok r =>
      dsimp only
      split
      · refine ⟨?_, ?_, ?_⟩ <;>
          simp [normalizeRow, List.map_append, h1, h2, h3]
      · exact ⟨h1, h2, h3⟩

theorem runLoop_sums {rb : String → Except String SimResult} {n : ℕ} :
    ∀ (l : List String) (i : ℕ) (st : AggState), SumsOk st →
      SumsOk (runLoop rb n i l st)
  | [], _, _, h => h
  | _ :: rest, i, st, h =>
      runLoop_sums rest (i + 1) _ (processOne_sums h)

theorem initState_sums : SumsOk initState := ⟨rfl, rfl, rfl⟩

theorem finalState_sums (rb : String → Except String SimResult)
    (FP M I C : List String) : SumsOk (finalState rb FP M I C) :=
  runLoop_sums _ _ _ initState_sums

/-! ### The aggregation core of the loop state, independent of the
console transcript and the enumeration index -/

/-- The aggregation data of a loop state: rows and the three totals. -/
def AggState.core (st : AggState) : List AssetRow × ℤ × ℤ × ℚ :=
  (st.all_results, st.total_trades_all, st.total_wins_all, st.total_r_all)

/-- The core transition of one loop iteration. -/
def processCore (rb : String → Except String SimResult)
    (c : List AssetRow × ℤ × ℤ × ℚ) (a : String) :
    List AssetRow × ℤ × ℤ × ℚ :=
  match rb a with
  | .error _ => c
  | .ok r =>
      if 0 < r.total_trades.getD 0 then
        (c.1 ++ [normalizeRow a r], c.2.1 + r.total_trades.getD 0,
         c.2.2.1 + winCount r, c.2.2.2 + totalROf r)
      else c

theorem processOne_core (rb : String → Except String SimResult) (n i : ℕ)
    (st : AggState) (a : String) :
    (processOne rb n i st a).core = processCore rb st.core a := by
  unfold processOne processCore
  cases rb a with
  | error e => rfl
  | ok r =>
      dsimp only
      split <;> rfl

theorem runLoop_core (rb : String → Except String SimResult) (n : ℕ) :
    ∀ (l : List String) (i : ℕ) (st : AggState),
      (runLoop rb n i l st).core = l.foldl (processCore rb) st.core
  | [], _, _ => rfl
  | a :: rest, i, st => by
      show (runLoop rb n (i + 1) rest (processOne rb n i st a)).core = _
      rw [runLoop_core rb n rest (i + 1) (processOne rb n i st a),
        processOne_core, List.foldl_cons]

/-- Console lines are never removed by the loop. -/
theorem processOne_console_mono {rb : String → Except String SimResult}
    {n i : ℕ} {st : AggState} {a : String} {c : ConsoleLine}
    (h : c ∈ st.console) : c ∈ (processOne rb n i st a).console := by
  unfold processOne
  cases rb a with
  | error e => exact List.mem_append_left _ h
  | ok r =>
      dsimp only
      split
      · exact List.mem_append_left _ h
      · exact List.mem_append_left _ h

theorem runLoop_console_mono {rb : String → Except String SimResult}
    {n : ℕ} {c : ConsoleLine} :
    ∀ (l : List String) (i : ℕ) (st : AggState), c ∈ st.console →
      c ∈ (runLoop rb n i l st).console
  | [], _, _, h => h
  | _ :: rest, i, st, h =>
      runLoop_console_mono rest (i + 1) _ (processOne_console_mono h)

/-- Splitting the loop at a list append, tracking the enumeration index. -/
theorem runLoop_append (rb : String → Except String SimResult) (n : ℕ) :
    ∀ (l1 l2 : List String) (i : ℕ) (st : AggState),
      runLoop rb n i (l1 ++ l2) st =
        runLoop rb n (i + l1.length) l2 (runLoop rb n i l1 st)
  | [], l2, i, st => by simp [runLoop]
  | a :: rest, l2, i, st => by
      show runLoop rb n (i + 1) (rest ++ l2) (processOne rb n i st a) = _
      rw [runLoop_append rb n rest l2 (i + 1) (processOne rb n i st a)]
      simp [runLoop]
      ring_nf

/-- A successful projection means the run returned `.ok`. -/
theorem exists_ok_of_runResult {x : Except String RunOutput}
    {o : Option OutputData} (h : runResult x = some o) :
    ∃ out, x = .ok out := by
  cases x with
  | error e => exact absurd h (by simp [runResult])
  | ok out => exact ⟨out, rfl⟩

/-- Computing `netReturnOf` through `runResult`. -/
theorem netReturnOf_eq {x : Except String RunOutput} {o : Option OutputData}
    (h : runResult x = some o) :
    netReturnOf x = o.map fun d => d.summary.net_return_pct := by
  cases x with
  | error e => exact absurd h (by simp [runResult])
  | ok out =>
      simp only [runResult, Option.some_inj] at h
      rw [netReturnOf, h]

/-- Computing `netProfitOf` through `runResult`. -/
theorem netProfitOf_eq {x : Except String RunOutput} {o : Option OutputData}
    (h : runResult x = some o) :
    netProfitOf x = o.map fun d => d.summary.net_profit_usd := by
  cases x with
  | error e => exact absurd h (by simp [runResult])
  | ok out =>
      simp only [runResult, Option.some_inj] at h
      rw [netProfitOf, h]

/-- Computing `winRateOf` through `runResult`. -/
theorem winRateOf_eq {x : Except String RunOutput} {o : Option OutputData}
    (h : runResult x = some o) :
    winRateOf x = o.map fun d => d.summary.win_rate := by
  cases x with
  | error e => exact absurd h (by simp [runResult])
  | ok out =>
      simp only [runResult, Option.some_inj] at h
      rw [winRateOf, h]

/-- With at least one qualifying asset, every division in the summary
phase has a positive denominator, so the whole run returns `.ok` with
the artifact built by `mkOutputData` from the loop totals. -/
theorem run_full_backtest_ok (rb : String → Except String SimResult)
    (FP M I C : List String) (AS RISK : ℚ) (SM now : String)
    (h : (finalState rb FP M I C).all_results ≠ []) :
    runResult (run_full_backtest rb FP M I C AS RISK SM now) =
      some (some (mkOutputData "Jan 2024 - Dec 2024" now AS RISK SM
        (allAssets FP M I C).length
        (sortRows (finalState rb FP M I C).all_results)
        (finalState rb FP M I C).total_trades_all
        (((finalState rb FP M I C).total_wins_all : ℚ) /
          ((finalState rb FP M I C).total_trades_all : ℚ) * 100)
        (finalState rb FP M I C).total_r_all
        ((finalState rb FP M I C).total_r_all /
          ((finalState rb FP M I C).total_trades_all : ℚ))
        (total_return_pct_calc (finalState rb FP M I C).total_r_all RISK)
        (total_profit_calc AS
          (total_return_pct_calc (finalState rb FP M I C).total_r_all RISK))
        ((sortRows (finalState rb FP M I C).all_results).map AssetRow.tp1_hits).sum
        ((sortRows (finalState rb FP M I C).all_results).map AssetRow.tp2_hits).sum
        ((sortRows (finalState rb FP M I C).all_results).map AssetRow.tp3_hits).sum
        ((sortRows (finalState rb FP M I C).all_results).map AssetRow.sl_hits).sum)) := by
  have htt : 0 < (finalState rb FP M I C).total_trades_all := finalState_tt_pos h
  have httQ : ((finalState rb FP M I C).total_trades_all : ℚ) ≠ 0 :=
    Int.cast_ne_zero.mpr (ne_of_gt htt)
  have hE : (finalState rb FP M I C).all_results.isEmpty = false := by
    cases hL : (finalState rb FP M I C).all_results with
    | nil => exact absurd hL h
    | cons a l => rfl
  have hw : avg_win_rate_calc (finalState rb FP M I C).total_wins_all
      (finalState rb FP M I C).total_trades_all =
      .ok (((finalState rb FP M I C).total_wins_all : ℚ) /
        ((finalState rb FP M I C).total_trades_all : ℚ) * 100) := by
    unfold avg_win_rate_calc pyDiv
    rw [if_pos htt, if_neg httQ]
    rfl
  have hr : avg_r_calc (finalState rb FP M I C).total_r_all
      (finalState rb FP M I C).total_trades_all =
      .ok ((finalState rb FP M I C).total_r_all /
        ((finalState rb FP M I C).total_trades_all : ℚ)) := by
    unfold avg_r_calc pyDiv
    rw [if_pos htt, if_neg httQ]
  have hdiv : ∀ x : ℚ,
      pyDiv x ((finalState rb FP M I C).total_trades_all : ℚ) =
        .ok (x / ((finalState rb FP M I C).total_trades_all : ℚ)) := by
    intro x
    unfold pyDiv
    rw [if_neg httQ]
  simp only [run_full_backtest, hE, Bool.false_eq_true, if_false, hw, hr,
    hdiv, ok_bind]
  rfl

/-! ### The claims -/

/-- C1.  When no asset yields any trades (`total_trades_all = 0`), the
run returns without raising: the artifact slot of the result is the
empty summary `return {}` (embedded as `none`), the console carries the
explicit "No trades found in the specified period." line, and the two
derived rates of the run, as computed by the guarded formulas of lines
133-134 at the run's own totals, are the defined value 0. -/
theorem zero_trades_no_data (rb : String → Except String SimResult)
    (FP M I C : List String) (AS RISK : ℚ) (SM now : String)
    (h : (finalState rb FP M I C).total_trades_all = 0) :
    runResult (run_full_backtest rb FP M I C AS RISK SM now) = some none
    ∧ ConsoleLine.noTradesFound ∈
        runConsole (run_full_backtest rb FP M I C AS RISK SM now)
    ∧ avg_win_rate_calc (finalState rb FP M I C).total_wins_all
        (finalState rb FP M I C).total_trades_all = .ok 0
    ∧ avg_r_calc (finalState rb FP M I C).total_r_all
        (finalState rb FP M I C).total_trades_all = .ok 0 := by
  have hnil : (finalState rb FP M I C).all_results = [] :=
    finalState_nil_of_tt_zero h
  have hE : (finalState rb FP M I C).all_results.isEmpty = true := by
    rw [hnil]
    rfl
  have hrun : run_full_backtest rb FP M I C AS RISK SM now =
      .ok { console := (finalState rb FP M I C).console ++
              [ConsoleLine.noTradesFound]
            result := none } := by
    simp only [run_full_backtest, hE, if_true]
  refine ⟨?_, ?_, ?_, ?_⟩
  · rw [hrun]
    rfl
  · rw [hrun]
    exact List.mem_append_right _ (List.mem_singleton.mpr rfl)
  · rw [h]
    simp [avg_win_rate_calc]
  · rw [h]
    simp [avg_r_calc]

/-- Witness for C1: a universe whose single asset reports no trades. -/
def rbNoTrades : String → Except String SimResult := fun _ => .ok {}

theorem zero_trades_no_data_witness :
    runResult (run_full_backtest rbNoTrades ["EURUSD"] [] [] []
      10000 (1 / 100) "conservative" "2024-12-31T00:00:00") = some none
    ∧ ConsoleLine.noTradesFound ∈
        runConsole (run_full_backtest rbNoTrades ["EURUSD"] [] [] []
          10000 (1 / 100) "conservative" "2024-12-31T00:00:00")
    ∧ avg_win_rate_calc
        (finalState rbNoTrades ["EURUSD"] [] [] []).total_wins_all
        (finalState rbNoTrades ["EURUSD"] [] [] []).total_trades_all = .ok 0
    ∧ avg_r_calc (finalState rbNoTrades ["EURUSD"] [] [] []).total_r_all
        (finalState rbNoTrades ["EURUSD"] [] [] []).total_trades_all = .ok 0 :=
  zero_trades_no_data rbNoTrades ["EURUSD"] [] [] []
    10000 (1 / 100) "conservative" "2024-12-31T00:00:00" (by decide)

/-- C2.  The run never surfaces a division-by-zero error: for every
simulator and universe the whole run returns `.ok`, and the two guarded
rate formulas yield the defined value 0 on a zero denominator.  (The
unguarded exit-breakdown divisions are reached only after the early
no-data return, hence only with `total_trades_all > 0`.) -/
theorem division_guard_safe (rb : String → Except String SimResult)
    (FP M I C : List String) (AS RISK : ℚ) (SM now : String)
    (tw : ℤ) (tr : ℚ) :
    (∃ out, run_full_backtest rb FP M I C AS RISK SM now = .ok out)
    ∧ avg_win_rate_calc tw 0 = .ok 0
    ∧ avg_r_calc tr 0 = .ok 0 := by
  refine ⟨?_, by simp [avg_win_rate_calc], by simp [avg_r_calc]⟩
  by_cases h : (finalState rb FP M I C).all_results = []
  · have hE : (finalState rb FP M I C).all_results.isEmpty = true := by
      rw [h]
      rfl
    have hrun : run_full_backtest rb FP M I C AS RISK SM now =
        .ok { console := (finalState rb FP M I C).console ++
                [ConsoleLine.noTradesFound]
              result := none } := by
      simp only [run_full_backtest, hE, if_true]
    exact ⟨_, hrun⟩
  · exact exists_ok_of_runResult (run_full_backtest_ok rb FP M I C AS RISK SM now h)

/-- C5.  The portfolio accumulators are exactly the sums over the
qualifying rows: `total_r_all` is the sum of the rows' `total_r`,
`total_wins_all` the count of trades with `rr > 0` across the rows'
result data, and `total_trades_all` the sum of the rows' trade counts. -/
theorem portfolio_totals (rb : String → Except String SimResult)
    (FP M I C : List String)
    (h : (finalState rb FP M I C).all_results ≠ []) :
    (finalState rb FP M I C).total_r_all =
      ((finalState rb FP M I C).all_results.map AssetRow.total_r).sum
    ∧ (finalState rb FP M I C).total_wins_all =
      ((finalState rb FP M I C).all_results.map
        fun row => winCount row.full_result).sum
    ∧ (finalState rb FP M I C).total_trades_all =
      ((finalState rb FP M I C).all_results.map AssetRow.trades).sum :=
  finalState_sums rb FP M I C

/-- Witness simulator: two trades, one winning, `total_r = 1`. -/
def rbTwoTrades : String → Except String SimResult := fun _ =>
  .ok { total_trades := some 2, win_rate := some 50
        net_return_pct := some 1
        trades := some [{ rr := some 2 }, { rr := some (-1) }] }

theorem portfolio_totals_witness :
    (finalState rbTwoTrades ["EURUSD"] [] [] []).total_r_all =
      ((finalState rbTwoTrades ["EURUSD"] [] [] []).all_results.map
        AssetRow.total_r).sum
    ∧ (finalState rbTwoTrades ["EURUSD"] [] [] []).total_wins_all =
      ((finalState rbTwoTrades ["EURUSD"] [] [] []).all_results.map
        fun row => winCount row.full_result).sum
    ∧ (finalState rbTwoTrades ["EURUSD"] [] [] []).total_trades_all =
      ((finalState rbTwoTrades ["EURUSD"] [] [] []).all_results.map
        AssetRow.trades).sum :=
  portfolio_totals rbTwoTrades ["EURUSD"] [] [] [] (by decide)

/-- C7.  With at least one qualifying asset, the artifact's net return
percentage is `total_r_all * risk_per_trade_pct * 100` and its net
profit is `account_size * (net_return_pct / 100)`; at the concrete
scenario `account_size = 10000`, `risk = 0.01`, `total_r_all = 20` the
formulas give `20` percent and `2000` dollars. -/
theorem net_return_formula (rb : String → Except String SimResult)
    (FP M I C : List String) (AS RISK : ℚ) (SM now : String)
    (h : (finalState rb FP M I C).all_results ≠ []) :
    netReturnOf (run_full_backtest rb FP M I C AS RISK SM now) =
      some ((finalState rb FP M I C).total_r_all * RISK * 100)
    ∧ netProfitOf (run_full_backtest rb FP M I C AS RISK SM now) =
      some (AS * ((finalState rb FP M I C).total_r_all * RISK * 100 / 100))
    ∧ total_return_pct_calc 20 (1 / 100) = 20
    ∧ total_profit_calc 10000 20 = 2000 := by
  have hcs := run_full_backtest_ok rb FP M I C AS RISK SM now h
  refine ⟨?_, ?_, by norm_num [total_return_pct_calc],
    by norm_num [total_profit_calc]⟩
  · rw [netReturnOf_eq hcs]
    rfl
  · rw [netProfitOf_eq hcs]
    rfl

/-- Witness simulator for C7: one asset, two trades totalling 20 R. -/
def rbTwentyR : String → Except String SimResult := fun _ =>
  .ok { total_trades := some 2
        trades := some [{ rr := some 12 }, { rr := some 8 }] }

theorem net_return_formula_witness :
    netReturnOf (run_full_backtest rbTwentyR ["EURUSD"] [] [] []
      10000 (1 / 100) "conservative" "ts") =
      some ((finalState rbTwentyR ["EURUSD"] [] [] []).total_r_all *
        (1 / 100) * 100)
    ∧ netProfitOf (run_full_backtest rbTwentyR ["EURUSD"] [] [] []
        10000 (1 / 100) "conservative" "ts") =
      some (10000 * ((finalState rbTwentyR ["EURUSD"] [] [] []).total_r_all *
        (1 / 100) * 100 / 100))
    ∧ total_return_pct_calc 20 (1 / 100) = 20
    ∧ total_profit_calc 10000 20 = 2000 :=
  net_return_formula rbTwentyR ["EURUSD"] [] [] []
    10000 (1 / 100) "conservative" "ts" (by decide)

/-- The descending comparator is transitive. -/
theorem rowLE_trans (a b c : AssetRow) (h1 : rowLE a b) (h2 : rowLE b c) :
    rowLE a c := by
  simp only [rowLE, decide_eq_true_eq] at h1 h2 ⊢
  exact le_trans h2 h1

/-- The descending comparator is total. -/
theorem rowLE_total (a b : AssetRow) : rowLE a b || rowLE b a := by
  simp only [rowLE]
  rcases le_total a.total_r b.total_r with h | h <;> simp [h]

/-- C3.  The ranking step is a permutation of the qualifying rows,
sorted by `total_r` descending; it is stable (a pair in original order
with equal `total_r` stays a sublist of the output); and the top-K view
is the first 10 ranked entries — all of them when 10 or fewer qualify. -/
theorem ranker_stable_sort (l : List AssetRow) (a b : AssetRow)
    (hne : l ≠ []) (heq : a.total_r = b.total_r) (hsub : List.Sublist [a, b] l) :
    (sortRows l).Perm l
    ∧ (sortRows l).Pairwise (fun x y => y.total_r ≤ x.total_r)
    ∧ List.Sublist [a, b] (sortRows l)
    ∧ topPerformers l = (sortRows l).take 10
    ∧ (l.length ≤ 10 → topPerformers l = sortRows l) := by
  refine ⟨List.mergeSort_perm l rowLE, ?_, ?_, rfl, ?_⟩
  · have hs := List.sorted_mergeSort
      (fun x y z h1 h2 => rowLE_trans x y z h1 h2) rowLE_total l
    exact hs.imp fun h => by
      simpa only [rowLE, decide_eq_true_eq] using h
  · exact List.pair_sublist_mergeSort
      (fun x y z h1 h2 => rowLE_trans x y z h1 h2) rowLE_total
      (by simp [rowLE, heq]) hsub
  · intro hlen
    have hlen2 : (sortRows l).length ≤ 10 := by
      unfold sortRows
      rw [(List.mergeSort_perm l rowLE).length_eq]
      exact hlen
    exact List.take_of_length_le hlen2

/-- Witness rows for the ranker: `rowA` and `rowB` tie on `total_r`. -/
def rowA : AssetRow :=
  { asset := "EURUSD", trades := 3, win_rate := 50, total_r := 2
    return_pct := 1, max_dd_pct := 0, tp1_hits := 0, tp2_hits := 0
    tp3_hits := 0, sl_hits := 0, full_result := {} }

/-- Same `total_r` as `rowA`, later in original order. -/
def rowB : AssetRow := { rowA with asset := "GBPUSD" }

/-- A strictly better row, listed first. -/
def rowC : AssetRow := { rowA with asset := "XAUUSD", total_r := 5 }

theorem ranker_stable_sort_witness :
    (sortRows [rowC, rowA, rowB]).Perm [rowC, rowA, rowB]
    ∧ (sortRows [rowC, rowA, rowB]).Pairwise
        (fun x y => y.total_r ≤ x.total_r)
    ∧ List.Sublist [rowA, rowB] (sortRows [rowC, rowA, rowB])
    ∧ topPerformers [rowC, rowA, rowB] = (sortRows [rowC, rowA, rowB]).take 10
    ∧ topPerformers [rowC, rowA, rowB] = sortRows [rowC, rowA, rowB] := by
  have h := ranker_stable_sort [rowC, rowA, rowB] rowA rowB (by decide)
    (by decide) (List.Sublist.cons rowC (List.Sublist.refl [rowA, rowB]))
  exact ⟨h.1, h.2.1, h.2.2.1, h.2.2.2.1, h.2.2.2.2 (by decide)⟩

/-- The value `totalROf r` is the plain sum of the trades' `rr` defaults (the
`if trades else 0` guard collapses: an empty sum is 0 anyway). -/
theorem totalROf_eq_sum (r : SimResult) :
    totalROf r = ((r.trades.getD []).map tradeRR).sum := by
  unfold totalROf tradesOf
  cases r.trades.getD [] <;> simp

/-- C4.  A qualifying asset's `total_r` is recomputed as the sum of its
trades' `rr` values (absent `rr` contributing 0); it is unchanged under
any alteration of the engine-reported `win_rate`/`net_return_pct`, which
are themselves passed through to the row unchanged; and the row the loop
appends is exactly this normalization. -/
theorem total_r_recomputed (asset : String) (r : SimResult)
    (w p : Option ℚ) (v u : ℚ) (rb : String → Except String SimResult)
    (st : AggState) (n i : ℕ)
    (hq : 0 < r.total_trades.getD 0) (hrb : rb asset = .ok r)
    (hv : r.win_rate = some v) (hu : r.net_return_pct = some u) :
    (normalizeRow asset r).total_r = ((r.trades.getD []).map tradeRR).sum
    ∧ (normalizeRow asset
        { r with win_rate := w, net_return_pct := p }).total_r =
      (normalizeRow asset r).total_r
    ∧ (normalizeRow asset r).win_rate = v
    ∧ (normalizeRow asset r).return_pct = u
    ∧ tradeRR { rr := none } = 0
    ∧ (processOne rb n i st asset).all_results =
        st.all_results ++ [normalizeRow asset r] := by
  refine ⟨totalROf_eq_sum r, rfl, ?_, ?_, rfl, ?_⟩
  · rw [normalizeRow]
    rw [hv]
    rfl
  · rw [normalizeRow]
    rw [hu]
    rfl
  · unfold processOne
    rw [hrb]
    dsimp only
    rw [if_pos hq]

/-- The engine payload used by several witnesses: two trades, rr = +2
and rr = −1. -/
def rTwo : SimResult :=
  { total_trades := some 2, win_rate := some 50, net_return_pct := some 1
    trades := some [{ rr := some 2 }, { rr := some (-1) }] }

theorem total_r_recomputed_witness :
    (normalizeRow "EURUSD" rTwo).total_r =
      ((rTwo.trades.getD []).map tradeRR).sum
    ∧ (normalizeRow "EURUSD"
        { rTwo with win_rate := some 99, net_return_pct := some 77 }).total_r =
      (normalizeRow "EURUSD" rTwo).total_r
    ∧ (normalizeRow "EURUSD" rTwo).win_rate = 50
    ∧ (normalizeRow "EURUSD" rTwo).return_pct = 1
    ∧ tradeRR { rr := none } = 0
    ∧ (processOne rbTwoTrades 1 1 initState "EURUSD").all_results =
        initState.all_results ++ [normalizeRow "EURUSD" rTwo] :=
  total_r_recomputed "EURUSD" rTwo (some 99) (some 77) 50 1 rbTwoTrades
    initState 1 1 (by decide) (by rfl) (by rfl) (by rfl)

/-- C6.  A raised per-asset exception is reported on the console with
the asset's identity and message, and the aggregation core (rows and all
three totals) is identical to the run whose universe simply omits the
failing asset. -/
theorem per_asset_isolation (rb : String → Except String SimResult)
    (l1 l2 : List String) (x e : String) (n n2 : ℕ)
    (hx : rb x = .error e) :
    (runLoop rb n 1 (l1 ++ x :: l2) initState).core =
      (runLoop rb n2 1 (l1 ++ l2) initState).core
    ∧ ConsoleLine.assetError (1 + l1.length) n x e ∈
        (runLoop rb n 1 (l1 ++ x :: l2) initState).console := by
  constructor
  · rw [runLoop_core, runLoop_core, List.foldl_append, List.foldl_append,
      List.foldl_cons]
    have hid : processCore rb ((List.foldl (processCore rb)
        initState.core l1)) x = List.foldl (processCore rb)
        initState.core l1 := by
      unfold processCore
      rw [hx]
    rw [hid]
  · rw [runLoop_append rb n l1 (x :: l2) 1 initState]
    show ConsoleLine.assetError (1 + l1.length) n x e ∈
      (runLoop rb n (1 + l1.length + 1) l2
        (processOne rb n (1 + l1.length)
          (runLoop rb n 1 l1 initState) x)).console
    apply runLoop_console_mono
    unfold processOne
    rw [hx]
    exact List.mem_append_right _ (List.mem_singleton.mpr rfl)

/-- Witness simulator for C6: one asset raises, the others succeed. -/
def rbOneBad : String → Except String SimResult := fun a =>
  if a = "BTCUSD" then .error "connection reset" else .ok rTwo

theorem per_asset_isolation_witness :
    (runLoop rbOneBad 3 1 (["EURUSD"] ++ "BTCUSD" :: ["XAUUSD"])
      initState).core =
      (runLoop rbOneBad 2 1 (["EURUSD"] ++ ["XAUUSD"]) initState).core
    ∧ ConsoleLine.assetError (1 + (["EURUSD"] : List String).length) 3
        "BTCUSD" "connection reset" ∈
        (runLoop rbOneBad 3 1 (["EURUSD"] ++ "BTCUSD" :: ["XAUUSD"])
          initState).console :=
  per_asset_isolation rbOneBad ["EURUSD"] ["XAUUSD"] "BTCUSD"
    "connection reset" 3 2 (by simp [rbOneBad])

/-- C8.  Python truthiness of a credential equates "missing or empty";
when either credential is missing or empty the gate prints the
instructional message and the process terminates with exit status 1
without consulting the simulator at all (the result is the same for any
simulator); when both are present and non-empty the check passes and the
run proceeds. -/
theorem credential_gate (rb rb2 : String → Except String SimResult)
    (FP M I C : List String) (AS RISK : ℚ) (SM now : String)
    (k a : Option String) :
    (∀ s : Option String, truthy s = false ↔ s = none ∨ s = some "")
    ∧ (truthy k = false ∨ truthy a = false →
        check_credentials k a = (credentialMessage, false)
        ∧ "Please set the following environment variables:" ∈
            (check_credentials k a).1
        ∧ mainProgram rb FP M I C AS RISK SM now k a = .error 1
        ∧ mainProgram rb2 FP M I C AS RISK SM now k a =
            mainProgram rb FP M I C AS RISK SM now k a)
    ∧ (truthy k = true → truthy a = true →
        check_credentials k a = ([], true)
        ∧ mainProgram rb FP M I C AS RISK SM now k a =
            .ok (run_full_backtest rb FP M I C AS RISK SM now)) := by
  refine ⟨?_, ?_, ?_⟩
  · intro s
    cases s with
    | none => simp [truthy]
    | some str =>
        simp [truthy, String.isEmpty_iff]
  · intro h
    have hc : check_credentials k a = (credentialMessage, false) := by
      rcases h with h | h <;> simp [check_credentials, h]
    refine ⟨hc, ?_, ?_, ?_⟩
    · rw [hc]
      simp [credentialMessage]
    · simp [mainProgram, hc]
    · simp [mainProgram, hc]
  · intro hk ha
    have hc : check_credentials k a = ([], true) := by
      simp [check_credentials, hk, ha]
    exact ⟨hc, by simp [mainProgram, hc]⟩

theorem credential_gate_witness :
    check_credentials none (some "101-001-1234567-001") =
      (credentialMessage, false)
    ∧ "Please set the following environment variables:" ∈
        (check_credentials none (some "101-001-1234567-001")).1
    ∧ mainProgram rbTwoTrades ["EURUSD"] [] [] [] 10000 (1 / 100) "m" "t"
        none (some "101-001-1234567-001") = .error 1
    ∧ mainProgram rbNoTrades ["EURUSD"] [] [] [] 10000 (1 / 100) "m" "t"
        none (some "101-001-1234567-001") =
      mainProgram rbTwoTrades ["EURUSD"] [] [] [] 10000 (1 / 100) "m" "t"
        none (some "101-001-1234567-001")
    ∧ check_credentials (some "abc123") (some "101-001-1234567-001") =
        ([], true)
    ∧ mainProgram rbTwoTrades ["EURUSD"] [] [] [] 10000 (1 / 100) "m" "t"
        (some "abc123") (some "101-001-1234567-001") =
      .ok (run_full_backtest rbTwoTrades ["EURUSD"] [] [] []
        10000 (1 / 100) "m" "t") := by
  have h1 := credential_gate rbTwoTrades rbNoTrades ["EURUSD"] [] [] []
    10000 (1 / 100) "m" "t" none (some "101-001-1234567-001")
  have h2 := credential_gate rbTwoTrades rbNoTrades ["EURUSD"] [] [] []
    10000 (1 / 100) "m" "t" (some "abc123") (some "101-001-1234567-001")
  have hfail := h1.2.1 (Or.inl (by decide))
  have hpass := h2.2.2 (by decide) (by decide)
  exact ⟨hfail.1, hfail.2.1, hfail.2.2.1, hfail.2.2.2, hpass.1, hpass.2⟩

/-- C9.  The serialized artifact is a pure function of the output
record: two artifacts built from the same summary, ranked table and run
parameters are byte-identical except for the `generated_at` value — both
factor as the same prefix and suffix around their respective timestamp —
and coincide outright when the timestamps also agree. -/
theorem serializer_deterministic (d1 d2 : OutputData)
    (hp : d1.period = d2.period) (ha : d1.account_size = d2.account_size)
    (hr : d1.risk_per_trade_pct = d2.risk_per_trade_pct)
    (hs : d1.signal_mode = d2.signal_mode) (hsum : d1.summary = d2.summary)
    (hb : d1.by_asset = d2.by_asset) :
    renderOutput d1 = renderPre d1 ++ jstr d1.generated_at ++ renderPost d1
    ∧ renderOutput d2 = renderPre d1 ++ jstr d2.generated_at ++ renderPost d1
    ∧ (d1.generated_at = d2.generated_at →
        renderOutput d1 = renderOutput d2) := by
  have hpre : renderPre d2 = renderPre d1 := by
    rw [renderPre, renderPre, hp]
  have hpost : renderPost d2 = renderPost d1 := by
    rw [renderPost, renderPost, ha, hr, hs, hsum, hb]
  refine ⟨rfl, ?_, ?_⟩
  · rw [renderOutput, hpre, hpost]
  · intro ht
    rw [renderOutput, renderOutput, hpre, hpost, ht]

/-- A concrete artifact record used by the serializer witness. -/
def sampleOutput (ts : String) : OutputData :=
  { period := "Jan 2024 - Dec 2024"
    generated_at := ts
    account_size := 10000
    risk_per_trade_pct := 1
    signal_mode := "conservative"
    summary :=
      { total_assets_tested := 1, assets_with_trades := 1, total_trades := 2
        win_rate := 50, total_r := 1, avg_r_per_trade := 1 / 2
        net_return_pct := 1, net_profit_usd := 100
        exit_breakdown := { tp1_trail := 1, tp2 := 0, tp3 := 0, sl := 1 } }
    by_asset := [{ asset := "EURUSD", trades := 2, win_rate := 50
                   total_r := 1, return_pct := 1, max_dd_pct := 0 }] }

theorem serializer_deterministic_witness :
    renderOutput (sampleOutput "2024-12-31T08:00:00") =
      renderPre (sampleOutput "2024-12-31T08:00:00") ++
        jstr "2024-12-31T08:00:00" ++
        renderPost (sampleOutput "2024-12-31T08:00:00")
    ∧ renderOutput (sampleOutput "2025-01-01T09:30:00") =
      renderPre (sampleOutput "2024-12-31T08:00:00") ++
        jstr "2025-01-01T09:30:00" ++
        renderPost (sampleOutput "2024-12-31T08:00:00") := by
  have h := serializer_deterministic (sampleOutput "2024-12-31T08:00:00")
    (sampleOutput "2025-01-01T09:30:00") rfl rfl rfl rfl rfl rfl
  exact ⟨h.1, h.2.1⟩

/-- The engine payload with `total_trades = 4` but a one-element trade
list: the reported count and the received trades disagree. -/
def rMismatch : SimResult :=
  { total_trades := some 4, trades := some [{ rr := some 2 }] }

/-- A simulator returning `rMismatch` for every asset. -/
def rbMismatch : String → Except String SimResult := fun _ => .ok rMismatch

/-- C10.  A result with a positive reported `total_trades` but an empty
(or absent) trade list still qualifies: the appended row has
`total_r = 0`, the reported count is added to the win-rate denominator
while zero wins are added; in general the portfolio win rate divides the
recomputed win count by the engine-reported trade total, so with
`total_trades = 4` but a single winning trade in the list it is 25%,
not the 100% the trade list alone would give. -/
theorem engine_count_denominator (rb : String → Except String SimResult)
    (st : AggState) (a : String) (r : SimResult) (n i : ℕ)
    (hrb : rb a = .ok r) (hq : 0 < r.total_trades.getD 0)
    (hempty : r.trades = none ∨ r.trades = some []) :
    (processOne rb n i st a).all_results =
      st.all_results ++ [normalizeRow a r]
    ∧ (normalizeRow a r).total_r = 0
    ∧ (processOne rb n i st a).total_trades_all =
        st.total_trades_all + r.total_trades.getD 0
    ∧ (processOne rb n i st a).total_wins_all = st.total_wins_all
    ∧ (processOne rb n i st a).total_r_all = st.total_r_all
    ∧ winRateOf (run_full_backtest rbMismatch ["BTCUSD"] [] [] []
        10000 (1 / 100) "m" "t") = some 25
    ∧ ((winCount rMismatch : ℚ) /
        ((tradesOf rMismatch).length : ℚ) * 100 = 100)
    ∧ (25 : ℚ) ≠ 100 := by
  have htr : tradesOf r = [] := by
    rcases hempty with h | h <;> simp [tradesOf, h]
  have hwin : winCount r = 0 := by
    simp [winCount, htr]
  have htot : totalROf r = 0 := by
    simp [totalROf, htr]
  have hstep : processOne rb n i st a =
      { all_results := st.all_results ++ [normalizeRow a r]
        total_trades_all := st.total_trades_all + r.total_trades.getD 0
        total_wins_all := st.total_wins_all + winCount r
        total_r_all := st.total_r_all + totalROf r
        console := st.console ++ [ConsoleLine.assetResult i n a
          (r.total_trades.getD 0) (normalizeRow a r).win_rate
          (normalizeRow a r).total_r] } := by
    unfold processOne
    rw [hrb]
    dsimp only
    rw [if_pos hq]
  have hok := run_full_backtest_ok rbMismatch ["BTCUSD"] [] [] []
    10000 (1 / 100) "m" "t" (by decide)
  refine ⟨by rw [hstep], ?_, by rw [hstep], ?_, ?_, ?_, ?_, by norm_num⟩
  · show totalROf r = 0
    exact htot
  · rw [hstep]
    show st.total_wins_all + winCount r = st.total_wins_all
    rw [hwin, add_zero]
  · rw [hstep]
    show st.total_r_all + totalROf r = st.total_r_all
    rw [htot, add_zero]
  · rw [winRateOf_eq hok]
    have hw4 : (finalState rbMismatch ["BTCUSD"] [] [] []).total_wins_all = 1 := by
      decide
    have ht4 : (finalState rbMismatch ["BTCUSD"] [] [] []).total_trades_all = 4 := by
      decide
    show some (((finalState rbMismatch ["BTCUSD"] [] [] []).total_wins_all : ℚ) /
      ((finalState rbMismatch ["BTCUSD"] [] [] []).total_trades_all : ℚ) * 100) =
      some 25
    rw [hw4, ht4]
    norm_num
  · have h1 : winCount rMismatch = 1 := by decide
    have h2 : (tradesOf rMismatch).length = 1 := by decide
    rw [h1, h2]
    norm_num

/-- A payload whose reported count is positive but whose trade list is
absent altogether. -/
def rEmptyQ : SimResult := { total_trades := some 4 }

/-- A simulator returning `rEmptyQ` for every asset. -/
def rbEmptyQ : String → Except String SimResult := fun _ => .ok rEmptyQ

theorem engine_count_denominator_witness :
    (processOne rbEmptyQ 1 1 initState "BTCUSD").all_results =
      initState.all_results ++ [normalizeRow "BTCUSD" rEmptyQ]
    ∧ (normalizeRow "BTCUSD" rEmptyQ).total_r = 0
    ∧ (processOne rbEmptyQ 1 1 initState "BTCUSD").total_trades_all =
        initState.total_trades_all + rEmptyQ.total_trades.getD 0
    ∧ (processOne rbEmptyQ 1 1 initState "BTCUSD").total_wins_all =
        initState.total_wins_all
    ∧ (processOne rbEmptyQ 1 1 initState "BTCUSD").total_r_all =
        initState.total_r_all
    ∧ winRateOf (run_full_backtest rbMismatch ["BTCUSD"] [] [] []
        10000 (1 / 100) "m" "t") = some 25
    ∧ ((winCount rMismatch : ℚ) /
        ((tradesOf rMismatch).length : ℚ) * 100 = 100)
    ∧ (25 : ℚ) ≠ 100 :=
  engine_count_denominator rbEmptyQ initState "BTCUSD" rEmptyQ 1 1
    (by rfl) (by decide) (Or.inl rfl)

end Backtest
